import Mathlib

/-!
Shallow embedding of the Breathing-App core (parthsali/Breathing-App).

Numbers in the source are JavaScript numbers used for seconds and scale
factors; the algorithm is piecewise-linear arithmetic, embedded here over ℚ.

* `BreathingState` / store operations — the Zustand store `useBreathingStore`
  (src/unnamed/part_001).
* `useFrameStep` — the per-frame callback of `BreathingSphere`
  (src/unnamed/part_002, `useFrame`), with its mutable refs made explicit in
  `FrameRefs` and the `setCurrentPhase` call surfaced as an `Option Phase`.
* `handleSubmit` — the custom-pattern form validation
  (src/src/components/CustomBreathing.tsx).
* `statsLoadSessions` — the StatsPage session-loading effect
  (src/src/pages/StatsPage.tsx).
* `patternText` / `getPatternInfo` — the two independent pattern-name lookups
  (src/src/components/BreathingTimer.tsx, src/src/pages/StatsPage.tsx).
-/

/-- The discrete breathing phase, from the union type
`'inhale' | 'hold' | 'exhale' | 'rest'` in the store. -/
inductive Phase where
  | inhale
  | hold
  | exhale
  | rest
deriving DecidableEq, Repr

/-- Theme colors, from the `theme` field of the store state. -/
structure Theme where
  primary : String
  secondary : String
  background : String
deriving DecidableEq, Repr

/-- The store state of `useBreathingStore` (src/unnamed/part_001, lines 21-42):
pattern times, running flag, discrete phase, elapsed-seconds counter, theme. -/
structure BreathingState where
  inhaleTime : ℚ
  holdTime : ℚ
  exhaleTime : ℚ
  isBreathing : Bool
  currentPhase : Phase
  elapsedTime : ℚ
  theme : Theme
deriving DecidableEq, Repr

/-- The initial store state (src/unnamed/part_001, lines 70-80): default
pattern 4-4-6, not breathing, phase rest, elapsed 0, blue/teal theme. -/
def initialState : BreathingState :=
  { inhaleTime := 4
    holdTime := 4
    exhaleTime := 6
    isBreathing := false
    currentPhase := Phase.rest
    elapsedTime := 0
    theme :=
      { primary := "#64b5f6"
        secondary := "#80cbc4"
        background := "#e0f7fa" } }

/-- `setBreathingPattern` (src/unnamed/part_001, lines 81-82): replaces the
three times and forces `currentPhase := 'inhale'`; other fields are merged
unchanged (Zustand `set` merges partial updates). -/
def setBreathingPattern (s : BreathingState) (inhale hold exhale : ℚ) :
    BreathingState :=
  { s with
    inhaleTime := inhale
    holdTime := hold
    exhaleTime := exhale
    currentPhase := Phase.inhale }

/-- `startBreathing` (src/unnamed/part_001, line 87):
`set({ isBreathing: true, currentPhase: 'inhale' })`. -/
def startBreathing (s : BreathingState) : BreathingState :=
  { s with isBreathing := true, currentPhase := Phase.inhale }

/-- `stopBreathing` (src/unnamed/part_001, line 88):
`set({ isBreathing: false, currentPhase: 'rest' })`. -/
def stopBreathing (s : BreathingState) : BreathingState :=
  { s with isBreathing := false, currentPhase := Phase.rest }

/-- `setCurrentPhase` (src/unnamed/part_001, line 89): last-write-wins setter
used by the frame driver. -/
def setCurrentPhase (s : BreathingState) (p : Phase) : BreathingState :=
  { s with currentPhase := p }

/-- `setElapsedTime` (src/unnamed/part_001, line 93). -/
def setElapsedTime (s : BreathingState) (t : ℚ) : BreathingState :=
  { s with elapsedTime := t }

/-- `setInhaleTime` (src/unnamed/part_001, line 90). -/
def setInhaleTime (s : BreathingState) (t : ℚ) : BreathingState :=
  { s with inhaleTime := t }

/-- `setHoldTime` (src/unnamed/part_001, line 91). -/
def setHoldTime (s : BreathingState) (t : ℚ) : BreathingState :=
  { s with holdTime := t }

/-- `setExhaleTime` (src/unnamed/part_001, line 92). -/
def setExhaleTime (s : BreathingState) (t : ℚ) : BreathingState :=
  { s with exhaleTime := t }

/-- The effect in `BreathingTimer` (src/src/components/BreathingTimer.tsx,
lines 74-83) on observing the running flag: when `isBreathing` is false it
runs `setElapsedTime(0)`; when true it installs the one-second interval
(which does not change the state at the moment of observation). -/
def timerEffectOnChange (s : BreathingState) : BreathingState :=
  if s.isBreathing then s else setElapsedTime s 0

/-- JavaScript `a % b` for a nonnegative dividend and positive divisor
(the only use in the source is `elapsedTime % totalCycleTime` with
`elapsedTime = (Date.now() - startTime.current) / 1000 ≥ 0`), where it
agrees with the floor-based remainder `a - b * ⌊a / b⌋` embedded here.
JS `a % 0` is `NaN`; the value of this embedding at `b = 0` is never relied
on except that every `NaN` comparison in the driver is false, matching the
branch taken here when `a ≥ 0` and the pattern times are `0`. -/
def jsMod (a b : ℚ) : ℚ := a - b * (⌊a / b⌋ : ℚ)

/-- `THREE.MathUtils.lerp(x, y, t) = (1 - t) * x + t * y`. -/
def threeLerp (x y t : ℚ) : ℚ := (1 - t) * x + t * y

/-- `resetDuration` (src/unnamed/part_002, line 115): 0.5 seconds. -/
def resetDuration : ℚ := 1 / 2

/-- One reset-animation frame (src/unnamed/part_002, lines 114-118): from the
previous `scale.current` and the reset-elapsed time, compute
`resetProgress = min(resetElapsed / 0.5, 1)` and
`scale.current = lerp(scale.current, 1, resetProgress)`. -/
def resetScaleStep (scale resetElapsed : ℚ) : ℚ :=
  threeLerp scale 1 (min (resetElapsed / resetDuration) 1)

/-- The scale after a sequence of reset-animation frames, one per listed
reset-elapsed time. -/
def resetRun (scale : ℚ) (ts : List ℚ) : ℚ :=
  ts.foldl resetScaleStep scale

/-- Phase classification of the running branch (src/unnamed/part_002,
lines 140-148): the branch conditions of the `if` chain on
`time` against `inhaleTime` and `inhaleTime + holdTime`. -/
def phaseAt (inhaleTime holdTime : ℚ) (time : ℚ) : Phase :=
  if time < inhaleTime then Phase.inhale
  else if time < inhaleTime + holdTime then Phase.hold
  else Phase.exhale

/-- Uncapped target scale of the running branch (src/unnamed/part_002,
lines 139-151), branch by branch: `1 + time/inhaleTime` during inhale, `2`
during hold, `2 - (time - (inhaleTime + holdTime))/exhaleTime` during
exhale. -/
def targetScaleAt (inhaleTime holdTime exhaleTime : ℚ) (time : ℚ) : ℚ :=
  if time < inhaleTime then 1 + time / inhaleTime
  else if time < inhaleTime + holdTime then 2
  else 2 - (time - (inhaleTime + holdTime)) / exhaleTime

/-- The mutable refs of `BreathingSphere` consulted by the frame callback
(src/unnamed/part_002, lines 70-72 and 96): `startTime`, `isResetting`,
`resetStartTime`, `scale`. -/
structure FrameRefs where
  startTime : ℚ
  isResetting : Bool
  resetStartTime : ℚ
  scale : ℚ
deriving DecidableEq, Repr

/-- One invocation of the `useFrame` callback of `BreathingSphere`
(src/unnamed/part_002, lines 109-165), with `now` the current wall-clock
time in seconds. Returns the updated refs and the argument of the
`setCurrentPhase` call when it is made (`none` when the running branch is
not reached). The resetting branch updates `scale.current` by
`resetScaleStep` and clears `isResetting` exactly when `resetProgress = 1`;
the running branch computes `time = elapsed % totalCycleTime`, classifies
the phase, and caps the target scale at `1.5` (mobile) or `2` (desktop). -/
def useFrameStep (inhaleTime holdTime exhaleTime : ℚ)
    (isBreathing isMobile : Bool) (r : FrameRefs) (now : ℚ) :
    FrameRefs × Option Phase :=
  if r.isResetting then
    let resetElapsed := now - r.resetStartTime
    let resetProgress := min (resetElapsed / resetDuration) 1
    let newScale := threeLerp r.scale 1 resetProgress
    if resetProgress = 1 then
      ({ r with scale := newScale, isResetting := false }, none)
    else
      ({ r with scale := newScale }, none)
  else if !isBreathing then (r, none)
  else
    let totalCycleTime := inhaleTime + holdTime + exhaleTime
    let elapsedTime := now - r.startTime
    let time := jsMod elapsedTime totalCycleTime
    let phase := phaseAt inhaleTime holdTime time
    let targetScale := targetScaleAt inhaleTime holdTime exhaleTime time
    let maxScale : ℚ := if isMobile then 3 / 2 else 2
    ({ r with scale := min targetScale maxScale }, some phase)

/-- `handleSubmit` of the custom-pattern form
(src/src/components/CustomBreathing.tsx, lines 56-67): no-op while
breathing; otherwise clamps inhale and exhale to `[1, 10]` and hold to
`[0, 10]` and applies `setBreathingPattern`. -/
def handleSubmit (s : BreathingState) (inhale hold exhale : ℚ) :
    BreathingState :=
  if s.isBreathing then s
  else
    setBreathingPattern s (max 1 (min 10 inhale)) (max 0 (min 10 hold))
      (max 1 (min 10 exhale))

/-- A persisted session record, from the `Session` interface shared by
src/src/pages/StatsPage.tsx (lines 28-36) and src/unnamed/part_005
(lines 46-54). -/
structure Session where
  id : String
  pattern : String
  duration : ℚ
  date : String
  inhaleTime : ℚ
  holdTime : ℚ
  exhaleTime : ℚ
deriving DecidableEq, Repr

/-- The StatsPage session-loading effect (src/src/pages/StatsPage.tsx,
lines 107-112). `stored` is the blob under the `breathing-sessions` key:
`none` when the key is absent (the `sessions` state keeps its initial `[]`),
and otherwise the outcome of `JSON.parse` on the stored string — `Except.ok`
a session list for well-formed JSON, `Except.error` the thrown
`SyntaxError` for malformed JSON. The source wraps the parse in no
`try`/`catch`, so the parse outcome propagates unchanged. -/
def statsLoadSessions (stored : Option (Except String (List Session))) :
    Except String (List Session) :=
  match stored with
  | none => Except.ok []
  | some r => r

/-- A preset entry of `BREATHING_PATTERNS` in
src/src/components/BreathingTimer.tsx (lines 21-46). -/
structure TimerPreset where
  name : String
  inhale : ℚ
  hold : ℚ
  exhale : ℚ
deriving DecidableEq, Repr

/-- `BREATHING_PATTERNS` of src/src/components/BreathingTimer.tsx
(lines 21-46). -/
def timerBreathingPatterns : List TimerPreset :=
  [ { name := "Calm", inhale := 4, hold := 4, exhale := 6 }
  , { name := "Focus", inhale := 4, hold := 7, exhale := 8 }
  , { name := "Balance", inhale := 4, hold := 4, exhale := 4 }
  , { name := "Deep", inhale := 6, hold := 2, exhale := 7 } ]

/-- A preset entry of `BREATHING_PATTERNS` in src/src/pages/StatsPage.tsx
(lines 39-68). -/
structure StatsPreset where
  name : String
  inhale : ℚ
  hold : ℚ
  exhale : ℚ
  description : String
deriving DecidableEq, Repr

/-- `BREATHING_PATTERNS` of src/src/pages/StatsPage.tsx (lines 39-68). -/
def statsBreathingPatterns : List StatsPreset :=
  [ { name := "Calm", inhale := 4, hold := 4, exhale := 6
      description := "Perfect for relaxation and stress relief" }
  , { name := "Focus", inhale := 4, hold := 7, exhale := 8
      description := "Enhances concentration and mental clarity" }
  , { name := "Balance", inhale := 4, hold := 4, exhale := 4
      description := "Promotes emotional balance and stability" }
  , { name := "Deep", inhale := 6, hold := 2, exhale := 7
      description := "Deep breathing for energy and vitality" } ]

/-- The pattern label computed by `BreathingTimer`
(src/src/components/BreathingTimer.tsx, lines 88-91): the matching preset
name, or the string `inhale-hold-exhale`. -/
def patternText (inhale hold exhale : ℚ) : String :=
  match timerBreathingPatterns.find?
      (fun p => p.inhale == inhale && p.hold == hold && p.exhale == exhale) with
  | some p => p.name
  | none => toString inhale ++ "-" ++ toString hold ++ "-" ++ toString exhale

/-- The name/description pair observed on the result of `getPatternInfo`
(src/src/pages/StatsPage.tsx, lines 143-151); the source returns either the
full preset object or an object with exactly these two fields, and only
these two fields are read from the result. -/
structure PatternInfo where
  name : String
  description : String
deriving DecidableEq, Repr

/-- `getPatternInfo` of src/src/pages/StatsPage.tsx (lines 143-151): the
matching preset (its name and description), or a fallback with name
`inhale-hold-exhale` and description `Custom breathing pattern`. -/
def getPatternInfo (inhale hold exhale : ℚ) : PatternInfo :=
  match statsBreathingPatterns.find?
      (fun p => p.inhale == inhale && p.hold == hold && p.exhale == exhale) with
  | some p => { name := p.name, description := p.description }
  | none =>
    { name := toString inhale ++ "-" ++ toString hold ++ "-" ++ toString exhale
      description := "Custom breathing pattern" }

/-- The store invariant of spec section 3: the discrete phase is `rest`
exactly when the session is not running. -/
def restIffStopped (s : BreathingState) : Prop :=
  s.currentPhase = Phase.rest ↔ s.isBreathing = false

/-- For a positive divisor the embedded remainder is nonnegative. -/
theorem jsMod_nonneg (a b : ℚ) (hb : 0 < b) : 0 ≤ jsMod a b := by
  have h1 : (⌊a / b⌋ : ℚ) ≤ a / b := Int.floor_le _
  have h2 : b * (a / b) = a := by field_simp
  have h3 : b * (⌊a / b⌋ : ℚ) ≤ b * (a / b) :=
    mul_le_mul_of_nonneg_left h1 hb.le
  rw [jsMod]
  linarith

/-- For a positive divisor the embedded remainder is below the divisor. -/
theorem jsMod_lt (a b : ℚ) (hb : 0 < b) : jsMod a b < b := by
  have h1 : a / b < (⌊a / b⌋ : ℚ) + 1 := Int.lt_floor_add_one _
  have h2 : a < ((⌊a / b⌋ : ℚ) + 1) * b := (div_lt_iff₀ hb).mp h1
  rw [jsMod]
  nlinarith

/-- The remainder of a value already inside `[0, b)` is the value itself. -/
theorem jsMod_eq_self (a b : ℚ) (h0 : 0 ≤ a) (hab : a < b) : jsMod a b = a := by
  have hb : 0 < b := lt_of_le_of_lt h0 hab
  have hfloor : ⌊a / b⌋ = 0 := by
    rw [Int.floor_eq_zero_iff]
    exact Set.mem_Ico.mpr ⟨div_nonneg h0 hb.le, (div_lt_one hb).mpr hab⟩
  rw [jsMod, hfloor]
  push_cast
  ring

/-- C1: for every pattern with positive inhale and exhale times and
nonnegative hold time, and every cycle time `t` in `[0, cycleLength)`, the
frame driver reports phase `inhale` iff `t < inhaleTime`, `hold` iff
`inhaleTime ≤ t < inhaleTime + holdTime`, and `exhale` otherwise; the three
phases partition the cycle with no gaps or overlaps, and `rest` is never
reported. -/
theorem phase_partition_c1 (i h e t rst sc : ℚ) (mob : Bool)
    (hi : 0 < i) (hh : 0 ≤ h) (he : 0 < e) (ht0 : 0 ≤ t)
    (htc : t < i + h + e) :
    (useFrameStep i h e true mob ⟨0, false, rst, sc⟩ t).2 =
      some (phaseAt i h t) ∧
    (phaseAt i h t = Phase.inhale ↔ t < i) ∧
    (phaseAt i h t = Phase.hold ↔ i ≤ t ∧ t < i + h) ∧
    (phaseAt i h t = Phase.exhale ↔ i + h ≤ t) ∧
    phaseAt i h t ≠ Phase.rest := by
  have hmod : jsMod t (i + h + e) = t := jsMod_eq_self t (i + h + e) ht0 htc
  refine ⟨?_, ?_, ?_, ?_, ?_⟩
  · simp [useFrameStep, hmod]
  · unfold phaseAt
    split_ifs with h1 h2
    · simp [h1]
    · simp [h1]
    · simp [h1]
  · unfold phaseAt
    split_ifs with h1 h2
    · exact iff_of_false (by simp) (fun hc => by linarith [hc.1])
    · exact iff_of_true rfl ⟨le_of_not_lt h1, h2⟩
    · exact iff_of_false (by simp) (fun hc => h2 hc.2)
  · unfold phaseAt
    split_ifs with h1 h2
    · exact iff_of_false (by simp) (fun hc => by linarith)
    · exact iff_of_false (by simp) (fun hc => by linarith)
    · exact iff_of_true rfl (le_of_not_lt h2)
  · unfold phaseAt
    split_ifs <;> simp

/-- Witness for C1 at the pattern (4, 4, 6) and cycle time 5: the driver
reports the hold phase. -/
theorem phase_partition_c1_witness :
    (useFrameStep 4 4 6 true false ⟨0, false, 0, 1⟩ 5).2 =
      some (phaseAt 4 4 5) ∧
    phaseAt 4 4 (5 : ℚ) = Phase.hold := by
  have hmain := phase_partition_c1 4 4 6 5 0 1 false (by norm_num)
    (by norm_num) (by norm_num) (by norm_num) (by norm_num)
  exact ⟨hmain.1, hmain.2.2.1.mpr (by norm_num)⟩

/-- C2: end-to-end scenario for the pattern (4, 0, 6) started at `t = 0`
on desktop: at `t = 0` phase inhale and scale 1; at `t = 2` scale 1.5; at
`t = 4` phase exhale and scale 2; at `t = 7` scale 1.5; at `t = 10` the
cycle wraps and phase is inhale with scale 1. -/
theorem scenario_4_0_6_c2 :
    (useFrameStep 4 0 6 true false ⟨0, false, 0, 1⟩ 0).2 =
      some Phase.inhale ∧
    (useFrameStep 4 0 6 true false ⟨0, false, 0, 1⟩ 0).1.scale = 1 ∧
    (useFrameStep 4 0 6 true false ⟨0, false, 0, 1⟩ 2).1.scale = 3 / 2 ∧
    (useFrameStep 4 0 6 true false ⟨0, false, 0, 1⟩ 4).2 =
      some Phase.exhale ∧
    (useFrameStep 4 0 6 true false ⟨0, false, 0, 1⟩ 4).1.scale = 2 ∧
    (useFrameStep 4 0 6 true false ⟨0, false, 0, 1⟩ 7).1.scale = 3 / 2 ∧
    (useFrameStep 4 0 6 true false ⟨0, false, 0, 1⟩ 10).2 =
      some Phase.inhale ∧
    (useFrameStep 4 0 6 true false ⟨0, false, 0, 1⟩ 10).1.scale = 1 := by
  norm_num [useFrameStep, jsMod, phaseAt, targetScaleAt, min_def]

/-- One reset frame moves the scale toward 1 without overshooting. -/
theorem resetScaleStep_between (sc t : ℚ) (ht : 0 ≤ t) :
    (1 ≤ sc → 1 ≤ resetScaleStep sc t ∧ resetScaleStep sc t ≤ sc) ∧
    (sc ≤ 1 → sc ≤ resetScaleStep sc t ∧ resetScaleStep sc t ≤ 1) := by
  have hp0 : 0 ≤ min (t / resetDuration) 1 :=
    le_min (div_nonneg ht (by norm_num [resetDuration])) (by norm_num)
  have hp1 : min (t / resetDuration) 1 ≤ 1 := min_le_right _ _
  unfold resetScaleStep threeLerp
  constructor <;> intro hsc <;> constructor <;>
    nlinarith [mul_nonneg hp0 (sub_nonneg.mpr hsc),
      mul_nonneg (sub_nonneg.mpr hp1) (sub_nonneg.mpr hsc),
      mul_nonneg hp0 (sub_nonneg.mpr hsc)]

/-- Over any tick sequence of nonnegative reset-elapsed times, the scale
stays between 1 and its value at reset start. -/
theorem resetRun_between (sc : ℚ) (ts : List ℚ) (hts : ∀ t ∈ ts, 0 ≤ t) :
    (1 ≤ sc → 1 ≤ resetRun sc ts ∧ resetRun sc ts ≤ sc) ∧
    (sc ≤ 1 → sc ≤ resetRun sc ts ∧ resetRun sc ts ≤ 1) := by
  induction ts generalizing sc with
  | nil => simp [resetRun]
  | cons t ts ih =>
    have ht : 0 ≤ t := hts t (List.mem_cons_self _ _)
    have hts2 : ∀ x ∈ ts, 0 ≤ x := fun x hx => hts x (List.mem_cons_of_mem _ hx)
    have hstep := resetScaleStep_between sc t ht
    have hrun : resetRun sc (t :: ts) = resetRun (resetScaleStep sc t) ts := rfl
    rw [hrun]
    have hih := ih (resetScaleStep sc t) hts2
    constructor <;> intro hsc
    · have h1 := hstep.1 hsc
      have h2 := hih.1 h1.1
      exact ⟨h2.1, le_trans h2.2 h1.2⟩
    · have h1 := hstep.2 hsc
      have h2 := hih.2 h1.2
      exact ⟨le_trans h1.1 h2.1, h2.2⟩

/-- C3: once resetting begins, over any sequence of ticks the scale moves
monotonically toward 1 (it stays between 1 and the start-of-reset value),
and at any tick whose reset-elapsed time reaches the 0.5-second reset
duration — in particular the first such tick — the frame callback sets the
scale to exactly 1 and exits resetting mode, regardless of the scale at
reset start. -/
theorem reset_decay_c3 (sc : ℚ) (ts : List ℚ) (hts : ∀ t ∈ ts, 0 ≤ t) :
    ((1 ≤ sc → 1 ≤ resetRun sc ts ∧ resetRun sc ts ≤ sc) ∧
     (sc ≤ 1 → sc ≤ resetRun sc ts ∧ resetRun sc ts ≤ 1)) ∧
    (∀ (i h e : ℚ) (breathing mobile : Bool) (r : FrameRefs) (now : ℚ),
      r.isResetting = true → resetDuration ≤ now - r.resetStartTime →
      (useFrameStep i h e breathing mobile r now).1.scale = 1 ∧
      (useFrameStep i h e breathing mobile r now).1.isResetting = false) := by
  refine ⟨resetRun_between sc ts hts, ?_⟩
  intro i h e breathing mobile r now hres hge
  have hprog : min ((now - r.resetStartTime) / resetDuration) 1 = 1 := by
    refine min_eq_right ?_
    rw [le_div_iff₀ (by norm_num [resetDuration])]
    linarith
  constructor <;> simp [useFrameStep, hres, hprog, threeLerp]

/-- Witness for C3: starting the reset at scale 2, a tick at 0.25 seconds
leaves the scale in `[1, 2]`, and a tick at 1 second (past the 0.5-second
duration) sets the scale to exactly 1 and clears the resetting flag. -/
theorem reset_decay_c3_witness :
    (1 ≤ resetRun 2 [1 / 4] ∧ resetRun 2 [1 / 4] ≤ 2) ∧
    (useFrameStep 4 4 6 true false ⟨0, true, 0, 2⟩ 1).1.scale = 1 ∧
    (useFrameStep 4 4 6 true false ⟨0, true, 0, 2⟩ 1).1.isResetting = false := by
  have hmain := reset_decay_c3 2 [1 / 4] (by norm_num)
  refine ⟨hmain.1.1 (by norm_num), ?_, ?_⟩
  · exact (hmain.2 4 4 6 true false ⟨0, true, 0, 2⟩ 1 rfl
      (by norm_num [resetDuration])).1
  · exact (hmain.2 4 4 6 true false ⟨0, true, 0, 2⟩ 1 rfl
      (by norm_num [resetDuration])).2

/-- C4 counterexample: `setBreathingPattern` called on the initial
(stopped) state forces `currentPhase = 'inhale'` while `isBreathing`
remains false, so the claimed equivalence fails. -/
theorem rest_iff_stopped_c4_cex :
    ¬ ((setBreathingPattern initialState 4 7 8).currentPhase = Phase.rest ↔
       (setBreathingPattern initialState 4 7 8).isBreathing = false) := by
  simp [setBreathingPattern, initialState]

/-- C4 amended: the equivalence `currentPhase = 'rest' ↔ isBreathing =
false` holds in the initial state, after `startBreathing` and
`stopBreathing` from any state, and is preserved by the four time setters;
`setBreathingPattern` preserves it only when called while breathing — called
while stopped it breaks the equivalence by forcing phase `inhale`. -/
theorem rest_iff_stopped_c4_amended :
    restIffStopped initialState ∧
    (∀ s, restIffStopped (startBreathing s)) ∧
    (∀ s, restIffStopped (stopBreathing s)) ∧
    (∀ s t, restIffStopped s → restIffStopped (setInhaleTime s t)) ∧
    (∀ s t, restIffStopped s → restIffStopped (setHoldTime s t)) ∧
    (∀ s t, restIffStopped s → restIffStopped (setExhaleTime s t)) ∧
    (∀ s t, restIffStopped s → restIffStopped (setElapsedTime s t)) ∧
    (∀ s i h e, s.isBreathing = true →
      restIffStopped (setBreathingPattern s i h e)) := by
  refine ⟨by simp [restIffStopped, initialState], ?_, ?_, ?_, ?_, ?_, ?_, ?_⟩
  · intro s; simp [restIffStopped, startBreathing]
  · intro s; simp [restIffStopped, stopBreathing]
  · intro s t hs; simpa [restIffStopped, setInhaleTime] using hs
  · intro s t hs; simpa [restIffStopped, setHoldTime] using hs
  · intro s t hs; simpa [restIffStopped, setExhaleTime] using hs
  · intro s t hs; simpa [restIffStopped, setElapsedTime] using hs
  · intro s i h e hb; simp [restIffStopped, setBreathingPattern, hb]

/-- Witness for C4 (amended): setting a pattern while breathing preserves
the equivalence. -/
theorem rest_iff_stopped_c4_witness :
    restIffStopped (setBreathingPattern (startBreathing initialState) 1 2 3) := by
  exact rest_iff_stopped_c4_amended.2.2.2.2.2.2.2
    (startBreathing initialState) 1 2 3 rfl

/-- C5 counterexample: with all three times set to 0 (cycle length 0),
`startBreathing` still starts the session — there is no zero-cycle guard —
and the frame driver still runs its unguarded modulo-and-classify logic,
reporting phase `exhale` instead of a configuration error (in JS the
`NaN` produced by `% 0` makes both `<` comparisons false, selecting the
same `exhale` branch). -/
theorem zero_cycle_c5_cex :
    (startBreathing (setBreathingPattern initialState 0 0 0)).isBreathing
      = true ∧
    (startBreathing (setBreathingPattern initialState 0 0 0)).inhaleTime +
      (startBreathing (setBreathingPattern initialState 0 0 0)).holdTime +
      (startBreathing (setBreathingPattern initialState 0 0 0)).exhaleTime
      = 0 ∧
    (useFrameStep 0 0 0 true false ⟨0, false, 0, 1⟩ 1).2 =
      some Phase.exhale := by
  refine ⟨rfl, by norm_num [startBreathing, setBreathingPattern, initialState], ?_⟩
  norm_num [useFrameStep, phaseAt, jsMod]

/-- C5 amended: neither `startBreathing` nor the driver guards a zero cycle
length — `startBreathing` sets `isBreathing = true` unconditionally; the
protection is upstream: the custom-pattern form clamps inhale and exhale to
`[1, 10]` and hold to `[0, 10]` before `setBreathingPattern`, so any
pattern applied through it while stopped has positive cycle length. -/
theorem zero_cycle_c5_amended (s : BreathingState) (i h e : ℚ)
    (hs : s.isBreathing = false) :
    (startBreathing s).isBreathing = true ∧
    0 < (handleSubmit s i h e).inhaleTime + (handleSubmit s i h e).holdTime +
        (handleSubmit s i h e).exhaleTime := by
  refine ⟨rfl, ?_⟩
  have h1 : (1 : ℚ) ≤ max 1 (min 10 i) := le_max_left _ _
  have h2 : (0 : ℚ) ≤ max 0 (min 10 h) := le_max_left _ _
  have h3 : (1 : ℚ) ≤ max 1 (min 10 e) := le_max_left _ _
  simp only [handleSubmit, hs, Bool.false_eq_true, if_false, setBreathingPattern]
  linarith

/-- Witness for C5 (amended): submitting the form values (0, 0, 0) on the
initial state yields a positive cycle length. -/
theorem zero_cycle_c5_witness :
    (startBreathing initialState).isBreathing = true ∧
    0 < (handleSubmit initialState 0 0 0).inhaleTime +
        (handleSubmit initialState 0 0 0).holdTime +
        (handleSubmit initialState 0 0 0).exhaleTime :=
  zero_cycle_c5_amended initialState 0 0 0 rfl

/-- C6: at every tick of a running session the pre-cap target scale lies in
`[1, 2]`; the emitted scale never exceeds 1.5 on mobile and 2 on desktop;
and with pattern (4, 4, 6), at every cycle time of the hold phase the
uncapped target is 2 while the emitted scale is 1.5 on mobile and 2 on
desktop. -/
theorem scale_bounds_c6 (i h e st now rst sc : ℚ) (mob : Bool)
    (hi : 0 < i) (hh : 0 ≤ h) (he : 0 < e) :
    (1 ≤ targetScaleAt i h e (jsMod (now - st) (i + h + e)) ∧
     targetScaleAt i h e (jsMod (now - st) (i + h + e)) ≤ 2) ∧
    ((useFrameStep i h e true mob ⟨st, false, rst, sc⟩ now).1.scale ≤
      (if mob then 3 / 2 else 2)) ∧
    (∀ t : ℚ, 4 ≤ t → t < 8 →
      targetScaleAt 4 4 6 t = 2 ∧
      (useFrameStep 4 4 6 true true ⟨0, false, rst, sc⟩ t).1.scale = 3 / 2 ∧
      (useFrameStep 4 4 6 true false ⟨0, false, rst, sc⟩ t).1.scale = 2) := by
  have hcyc : 0 < i + h + e := by linarith
  have ht0 : 0 ≤ jsMod (now - st) (i + h + e) := jsMod_nonneg _ _ hcyc
  have htc : jsMod (now - st) (i + h + e) < i + h + e := jsMod_lt _ _ hcyc
  refine ⟨?_, ?_, ?_⟩
  · unfold targetScaleAt
    split_ifs with h1 h2
    · have hd0 : 0 ≤ jsMod (now - st) (i + h + e) / i := div_nonneg ht0 hi.le
      have hd1 : jsMod (now - st) (i + h + e) / i < 1 := (div_lt_one hi).mpr h1
      constructor <;> linarith
    · norm_num
    · have hge : i + h ≤ jsMod (now - st) (i + h + e) := le_of_not_lt h2
      have hd0 : 0 ≤ (jsMod (now - st) (i + h + e) - (i + h)) / e :=
        div_nonneg (by linarith) he.le
      have hd1 : (jsMod (now - st) (i + h + e) - (i + h)) / e < 1 :=
        (div_lt_one he).mpr (by linarith)
      constructor <;> linarith
  · simp only [useFrameStep, Bool.false_eq_true, if_false, Bool.not_true,
      Bool.true_eq_false]
    exact min_le_right _ _
  · intro t ht4 ht8
    have hmod : jsMod t (4 + 4 + 6) = t :=
      jsMod_eq_self t (4 + 4 + 6) (by linarith) (by linarith)
    have hnl : ¬ (t < 4) := not_lt.mpr ht4
    have hlt : t < 4 + 4 := by linarith
    refine ⟨?_, ?_, ?_⟩ <;>
      simp [useFrameStep, targetScaleAt, hmod, hnl, hlt, min_def] <;>
      norm_num

/-- Witness for C6 at pattern (4, 4, 6), `now = 2`, mobile: target bounds
hold at cycle time 2, and at hold-phase time 5 the mobile scale is 1.5
while the desktop scale is 2. -/
theorem scale_bounds_c6_witness :
    (1 ≤ targetScaleAt 4 4 6 (jsMod (2 - 0) (4 + 4 + 6)) ∧
     targetScaleAt 4 4 6 (jsMod (2 - 0) (4 + 4 + 6)) ≤ 2) ∧
    (useFrameStep 4 4 6 true true ⟨0, false, 0, 1⟩ 5).1.scale = 3 / 2 ∧
    (useFrameStep 4 4 6 true false ⟨0, false, 0, 1⟩ 5).1.scale = 2 := by
  have hmain := scale_bounds_c6 4 4 6 0 2 0 1 true (by norm_num)
    (by norm_num) (by norm_num)
  exact ⟨hmain.1, (hmain.2.2 5 (by norm_num) (by norm_num)).2.1,
    (hmain.2.2 5 (by norm_num) (by norm_num)).2.2⟩

/-- C7: the running-branch output is a pure function of the pattern, the
start timestamp and the current time: two invocations that differ only in
the previous scale value and the stale reset-start time produce the same
emitted scale and the same reported phase — no hidden accumulation affects
the outcome. -/
theorem driver_pure_c7 (i h e st now sc1 sc2 rst1 rst2 : ℚ) (mob : Bool) :
    (useFrameStep i h e true mob ⟨st, false, rst1, sc1⟩ now).1.scale =
      (useFrameStep i h e true mob ⟨st, false, rst2, sc2⟩ now).1.scale ∧
    (useFrameStep i h e true mob ⟨st, false, rst1, sc1⟩ now).2 =
      (useFrameStep i h e true mob ⟨st, false, rst2, sc2⟩ now).2 := by
  constructor <;> simp [useFrameStep]

/-- C8 counterexample: a present-but-malformed `breathing-sessions` blob
makes `JSON.parse` throw, and `StatsPage` wraps the call in no `try`/`catch`,
so the read propagates the exception instead of degrading to an empty
history. -/
theorem corrupted_blob_c8_cex :
    statsLoadSessions (some (Except.error "SyntaxError")) =
      Except.error "SyntaxError" ∧
    statsLoadSessions (some (Except.error "SyntaxError")) ≠
      Except.ok [] := by
  exact ⟨rfl, by simp [statsLoadSessions]⟩

/-- C8 amended: a missing `breathing-sessions` key degrades to an empty
history and a well-formed blob loads its list, but the parse outcome of a
present blob propagates unchanged — in particular a malformed blob is a
thrown, uncaught exception, so the read is fatal rather than being treated
as "no sessions". -/
theorem corrupted_blob_c8_amended :
    statsLoadSessions none = Except.ok [] ∧
    (∀ l : List Session, statsLoadSessions (some (Except.ok l)) =
      Except.ok l) ∧
    (∀ msg : String, statsLoadSessions (some (Except.error msg)) =
      Except.error msg) :=
  ⟨rfl, fun _ => rfl, fun _ => rfl⟩

/-- C9: `stopBreathing` sets `isBreathing` to false and `currentPhase` to
`rest` and changes no other field — elapsed time, the three pattern times
and the theme are untouched; the elapsed-time reset to 0 happens separately,
when the timer display observes `isBreathing` become false. -/
theorem stop_frame_c9 (s : BreathingState) :
    (stopBreathing s).isBreathing = false ∧
    (stopBreathing s).currentPhase = Phase.rest ∧
    (stopBreathing s).elapsedTime = s.elapsedTime ∧
    (stopBreathing s).inhaleTime = s.inhaleTime ∧
    (stopBreathing s).holdTime = s.holdTime ∧
    (stopBreathing s).exhaleTime = s.exhaleTime ∧
    (stopBreathing s).theme = s.theme ∧
    (timerEffectOnChange (stopBreathing s)).elapsedTime = 0 := by
  refine ⟨rfl, rfl, rfl, rfl, rfl, rfl, rfl, ?_⟩
  simp [timerEffectOnChange, stopBreathing, setElapsedTime]

/-- C10: for every (inhale, hold, exhale) triple, the pattern label shown
by `BreathingTimer` equals the name returned by `StatsPage.getPatternInfo`:
the two independent preset tables and fallback strings agree. -/
theorem pattern_names_agree_c10 (inhale hold exhale : ℚ) :
    patternText inhale hold exhale = (getPatternInfo inhale hold exhale).name := by
  unfold patternText getPatternInfo timerBreathingPatterns statsBreathingPatterns
  cases h1 : ((4 : ℚ) == inhale && (4 : ℚ) == hold && (6 : ℚ) == exhale) <;>
    cases h2 : ((4 : ℚ) == inhale && (7 : ℚ) == hold && (8 : ℚ) == exhale) <;>
      cases h3 : ((4 : ℚ) == inhale && (4 : ℚ) == hold && (4 : ℚ) == exhale) <;>
        cases h4 : ((6 : ℚ) == inhale && (2 : ℚ) == hold && (7 : ℚ) == exhale) <;>
          simp [List.find?, h1, h2, h3, h4]
